import Mathlib

/-!
Verification of the Slide2Jira pipeline (PowerPoint → Jira issue converter).

Shallow embedding of the repository's core logic:
* `config.py`        — pattern tables and image-quality constants.
* `slide_detector.py`— issue detection and rule-based project routing.
* `ai_analyzer.py`   — per-slide analysis, response parsing, batch fan-out.
* `jira_client.py`   — ticket payload construction and batch ticket creation.
* `image_extractor.py`— JPEG quality-reduction loop.
* `processor.py`     — the pipeline coordinator.

External capabilities (deck reading, PDF conversion, PyMuPDF page rendering,
the vision model, `json.loads`, and the Jira REST endpoint) are modelled as
explicit oracle parameters; everything else is translated from the source.
Python exceptions are modelled with `Except String`; side effects that the
claims mention (submitted payloads, log lines) are returned explicitly.
-/

/-! ## config.py -/

/-- config.py: `DEFAULT_JPEG_QUALITY = 85`. -/
def DEFAULT_JPEG_QUALITY : Nat := 85

/-- config.py: `MIN_JPEG_QUALITY = 60`. -/
def MIN_JPEG_QUALITY : Nat := 60

/-- config.py: `DEFAULT_PROJECT_KEY = "AP"`. -/
def DEFAULT_PROJECT_KEY : String := "AP"

/-- Whether the first list is a prefix of the second (Python
`str.startswith`, on exploded strings). -/
def isPrefixList : List Char → List Char → Bool
  | [], _ => true
  | _ :: _, [] => false
  | a :: as, b :: bs => a == b && isPrefixList as bs

/-- Split a character list at every newline (Python `str.split("\n")` /
the `(?:^|\n)` anchor's line structure); `acc` holds the reversed current
line. -/
def splitLinesAux : List Char → List Char → List (List Char)
  | [], acc => [acc.reverse]
  | c :: cs, acc =>
    if c == '\n' then acc.reverse :: splitLinesAux cs []
    else splitLinesAux cs (c :: acc)

/-- Semantics of the regex `(?i)(?:^|\n)marker` used by every pattern in
`ISSUE_PATTERNS` and `ISSUE_PROJECT_RULES`: the (lower-case, newline-free)
marker occurs at the start of the string or immediately after a newline,
case-insensitively — i.e. some newline-separated line of the text,
lower-cased, starts with the marker. -/
def lineStartMatch (marker : String) (text : String) : Bool :=
  (splitLinesAux text.toList []).any
    (fun line => isPrefixList marker.toList (line.map Char.toLower))

/-- config.py `ISSUE_PATTERNS`: the six is-issue detector regexes, each of the
form `(?i)(?:^|\n)marker`, represented by their markers in declaration order
(the group in `(bug):` does not change what matches). -/
def ISSUE_PATTERNS : List String :=
  ["issue:", "bug:", "db issue:", "coj issue:", "aj issue:", "new feature:"]

/-- config.py `ISSUE_PROJECT_RULES`: the routing rules as an ordered list of
(marker, project key) pairs, in dict insertion order (Python dicts iterate in
insertion order). -/
def ISSUE_PROJECT_RULES : List (String × String) :=
  [("db issue:", "DB"),
   ("issue:", "AP"),
   ("bug:", "AP"),
   ("coj issue:", "COJ"),
   ("aj issue:", "AJ"),
   ("new feature:", "AP")]

/-! ## slide_detector.py -/

/-- slide_detector.py `SlideDetector._detect_issue_and_project`, taking the
already-extracted slide text (text extraction from shapes is the external
deck-reader capability): `None` if no detector pattern matches; otherwise the
key of the first matching routing rule, or `DEFAULT_PROJECT_KEY` if none
matches. -/
def _detect_issue_and_project (slide_text : String) : Option String :=
  if (ISSUE_PATTERNS.any (fun pat => lineStartMatch pat slide_text)) = false then
    none
  else
    match ISSUE_PROJECT_RULES.find? (fun rule => lineStartMatch rule.1 slide_text) with
    | some rule => some rule.2
    | none => some DEFAULT_PROJECT_KEY

/-- slide_detector.py `SlideDetector.find_issue_slides`: enumerate slides
1-based (a slide is modelled by its extracted text, the second tuple
component standing for the slide object) and yield `(idx, slide, project_key)`
triples for slides detected as issues. The Python generator is collected
eagerly, as `processor.process` does with `list(...)`. -/
def find_issue_slides (deck : List String) : List (Nat × String × String) :=
  deck.enum.filterMap (fun p =>
    match _detect_issue_and_project p.2 with
    | some key => some (p.1 + 1, p.2, key)
    | none => none)

/-! ## ai_analyzer.py: data model and response parsing -/

/-- ai_analyzer.py `SlideAnalysis` dataclass. -/
structure SlideAnalysis where
  slide_number : Nat
  title : String
  description : String
  priority : String := "Medium"
  issue_type : String := "Task"
  labels : List String := []
  project_key : Option String := none
  jira_key : Option String := none
deriving DecidableEq, Repr, Inhabited

/-- Model of the Python dict produced by `json.loads` in `_parse_response`
(restricted to the five fields `analyze_slide` reads with `.get`): each key
is optionally present. -/
structure AnalysisDict where
  title : Option String := none
  description : Option String := none
  priority : Option String := none
  issue_type : Option String := none
  labels : Option (List String) := none
deriving DecidableEq, Repr

/-- The opening brace character (written via its code point). -/
def lbrace : Char := Char.ofNat 123

/-- The closing brace character (written via its code point). -/
def rbrace : Char := Char.ofNat 125

/-- Index of the first element satisfying `p`, counting from `i`
(helper for `pyFind`/`pyRfind`). -/
def firstIdxAux (p : Char → Bool) : List Char → Nat → Option Nat
  | [], _ => none
  | c :: cs, i => if p c then some i else firstIdxAux p cs (i + 1)

/-- Python `str.find(c)`: index of the first occurrence, `-1` if absent. -/
def pyFind (s : String) (c : Char) : Int :=
  match firstIdxAux (fun x => x == c) s.toList 0 with
  | some i => (i : Int)
  | none => -1

/-- Python `str.rfind(c)`: index of the last occurrence, `-1` if absent. -/
def pyRfind (s : String) (c : Char) : Int :=
  match firstIdxAux (fun x => x == c) s.toList.reverse 0 with
  | some i => ((s.toList.length - 1 - i : Nat) : Int)
  | none => -1

/-- Python slice `s[a:b]` with `int` bounds: negative indices count from the
end, bounds are clamped to `[0, len(s)]`, and an empty slice results when the
normalized start is not below the normalized stop. -/
def pySlice (s : String) (a b : Int) : String :=
  let n := s.toList.length
  let norm : Int → Nat := fun i =>
    if i < 0 then (max (i + (n : Int)) 0).toNat else min i.toNat n
  String.mk (((s.toList).drop (norm a)).take (norm b - norm a))

/-- ai_analyzer.py `_parse_response`'s fallback dict, returned when JSON
parsing fails. -/
def fallbackDict (slide_num : Nat) (content : String) : AnalysisDict :=
  { title := some s!"Issue from Slide {slide_num}",
    description := some content,
    priority := some "Medium",
    issue_type := some "Task",
    labels := some [s!"slide-{slide_num}"] }

/-- ai_analyzer.py `AsyncAIAnalyzer._parse_response`: slice the text from the
first opening brace to the last closing brace and decode it as JSON
(`decoder` models the external `json.loads`, returning `none` on
`JSONDecodeError`/`ValueError`); on decode failure return the fallback
dict. -/
def _parse_response (decoder : String → Option AnalysisDict)
    (content : String) (slide_num : Nat) : AnalysisDict :=
  let json_start := pyFind content lbrace
  let json_end := pyRfind content rbrace + 1
  let json_str := pySlice content json_start json_end
  match decoder json_str with
  | some parsed => parsed
  | none => fallbackDict slide_num content

/-! ## ai_analyzer.py: per-slide analysis and batch fan-out -/

/-- Python truthiness of an optional string (`if self.manual_project_key:`,
`if not analysis.project_key:`): `none` and the empty string are falsy. -/
def optTruthy : Option String → Bool
  | none => false
  | some s => !s.toList.isEmpty

/-- ai_analyzer.py `AsyncAIAnalyzer.analyze_slide`: encode the image (external
file read, oracle `encode`), call the vision model (oracle `infer`), parse the
response, then resolve the project key — the manual override
(`config.project_key`, truthy test) wins, otherwise the pre-determined key
passed in. Exceptions from the oracles propagate (the `except` clause logs and
re-raises). -/
def analyze_slide (encode : String → Except String String)
    (infer : String → Nat → Except String String)
    (decoder : String → Option AnalysisDict)
    (manual_project_key : Option String)
    (image_path : String) (slide_num : Nat)
    (predetermined_project_key : Option String) : Except String SlideAnalysis :=
  match encode image_path with
  | Except.error e => Except.error e
  | Except.ok base64_image =>
    match infer base64_image slide_num with
    | Except.error e => Except.error e
    | Except.ok content =>
      let analysis_dict := _parse_response decoder content slide_num
      let project_key :=
        if optTruthy manual_project_key then manual_project_key
        else predetermined_project_key
      Except.ok {
        slide_number := slide_num,
        title := analysis_dict.title.getD s!"Issue from Slide {slide_num}",
        description := analysis_dict.description.getD "",
        priority := analysis_dict.priority.getD "Medium",
        issue_type := analysis_dict.issue_type.getD "Task",
        labels := analysis_dict.labels.getD [],
        project_key := project_key,
        jira_key := none }

/-- ai_analyzer.py: `slide_project_mapping.get(slide_num) if
slide_project_mapping else None` (the dict is modelled as an association
list; an absent or empty mapping yields `none`, matching Python falsiness of
`None` and `{}`). -/
def mappingGet (mapping : Option (List (Nat × String))) (slide_num : Nat) : Option String :=
  match mapping with
  | none => none
  | some l => (l.find? (fun p => p.1 == slide_num)).map Prod.snd

/-- ai_analyzer.py `analyze_slides_batch`'s task list: one analysis outcome
per `(slide_num, image_path)` entry of `slide_images`, in dict insertion
order, each paired with its slide number (as the result-filtering loop
recovers it via `list(slide_images.keys())[i]`). -/
def batchAnnotated (encode : String → Except String String)
    (infer : String → Nat → Except String String)
    (decoder : String → Option AnalysisDict)
    (manual_project_key : Option String)
    (slide_images : List (Nat × String))
    (mapping : Option (List (Nat × String))) :
    List (Nat × Except String SlideAnalysis) :=
  slide_images.map (fun ni =>
    match ni with
    | (slide_num, image_path) =>
      (slide_num,
       analyze_slide encode infer decoder manual_project_key image_path slide_num
         (mappingGet mapping slide_num)))

/-- ai_analyzer.py `AsyncAIAnalyzer.analyze_slides_batch`: gather all per-slide
results with `return_exceptions=True` (so no task's exception escapes the
batch — the function is total), keep the successful analyses in task order,
and log one error line per failed task. Returns (successes, error log). -/
def analyze_slides_batch (encode : String → Except String String)
    (infer : String → Nat → Except String String)
    (decoder : String → Option AnalysisDict)
    (manual_project_key : Option String)
    (slide_images : List (Nat × String))
    (mapping : Option (List (Nat × String))) :
    List SlideAnalysis × List String :=
  let results := batchAnnotated encode infer decoder manual_project_key slide_images mapping
  (results.filterMap (fun p => p.2.toOption),
   results.filterMap (fun p =>
     match p with
     | (slide_num, Except.error e) => some s!"Failed to analyze slide {slide_num}: {e}"
     | (_, Except.ok _) => none))

/-! ## jira_client.py -/

/-- One block of the Atlassian Document Format content produced by
`_create_adf_content`. -/
inductive ADFNode where
  | heading1 (text : String)
  | heading2 (text : String)
  | strong (text : String)
  | para (text : String)
deriving DecidableEq, Repr

/-- Python `str.strip()` on an exploded string: remove leading and trailing
whitespace characters. -/
def stripList (l : List Char) : List Char :=
  ((l.dropWhile Char.isWhitespace).reverse.dropWhile Char.isWhitespace).reverse

/-- Python `text.split("\n\n")` on an exploded string, structurally: scan
for the two-character separator, non-overlapping, left to right; `acc` holds
the reversed current chunk. -/
def splitBlankAux : List Char → List Char → List (List Char)
  | [], acc => [acc.reverse]
  | [c], acc => [(c :: acc).reverse]
  | c1 :: c2 :: cs, acc =>
    if c1 == '\n' && c2 == '\n' then acc.reverse :: splitBlankAux cs []
    else splitBlankAux (c2 :: cs) (c1 :: acc)

/-- jira_client.py `AsyncJiraClient._create_adf_content`: split the
description on blank lines; each stripped non-empty block becomes a level-1
heading (leading `# `), a level-2 heading (leading `## `), a bold paragraph
(wrapped in `**`), or a plain paragraph; blank text yields an empty
document. -/
def _create_adf_content (text : String) : List ADFNode :=
  if (stripList text.toList).isEmpty then []
  else
    (splitBlankAux text.toList []).filterMap (fun para =>
      let p := stripList para
      if p.isEmpty then none
      else if isPrefixList "# ".toList p then some (ADFNode.heading1 (String.mk (p.drop 2)))
      else if isPrefixList "## ".toList p then some (ADFNode.heading2 (String.mk (p.drop 3)))
      else if isPrefixList "**".toList p && isPrefixList "**".toList p.reverse then
        some (ADFNode.strong (String.mk ((p.drop 2).dropLast.dropLast)))
      else some (ADFNode.para (String.mk p)))

/-- The ticket payload built by `AsyncJiraClient.create_issue` (the `fields`
object of the POST body). -/
structure Payload where
  project : String
  issuetype : String
  summary : String
  description : List ADFNode
  priority : String
  labels : List String
deriving DecidableEq, Repr

/-- jira_client.py `AsyncJiraClient.create_issue`: copy the labels list and
append the slide tag to the copy; raise `ValueError` if the analysis has no
truthy project key (before any payload is submitted); otherwise build the
payload and POST it (oracle `post` models the Jira REST endpoint; its
`ClientError` is logged and re-raised). Returns the list of payloads actually
submitted alongside the outcome. -/
def create_issue (post : Payload → Except String String)
    (analysis : SlideAnalysis) : List Payload × Except String String :=
  let n := analysis.slide_number
  let labels := analysis.labels ++ [s!"slide-{n}"]
  if optTruthy analysis.project_key = false then
    ([], Except.error s!"No project key specified for slide {n}")
  else
    let payload : Payload := {
      project := analysis.project_key.getD "",
      issuetype := analysis.issue_type,
      summary := String.mk (analysis.title.toList.take 200),
      description := _create_adf_content analysis.description,
      priority := analysis.priority,
      labels := labels }
    ([payload], post payload)

/-- jira_client.py `create_issues_batch`'s inner `create_with_semaphore`: on
success set `jira_key` on the record; on any exception log and return the
record unchanged. -/
def createWithSemaphore (post : Payload → Except String String)
    (analysis : SlideAnalysis) : List Payload × SlideAnalysis :=
  match create_issue post analysis with
  | (submitted, Except.ok issue_key) => (submitted, { analysis with jira_key := some issue_key })
  | (submitted, Except.error _) => (submitted, analysis)

/-- jira_client.py `AsyncJiraClient.create_issues_batch`: one
`create_with_semaphore` task per analysis, gathered in input order. Because
every per-item exception is caught inside the task, the batch itself always
returns normally; the result carries all submitted payloads and the records
in input order. -/
def create_issues_batch (post : Payload → Except String String)
    (analyses : List SlideAnalysis) :
    Except String (List Payload × List SlideAnalysis) :=
  let results := analyses.map (createWithSemaphore post)
  Except.ok ((results.map Prod.fst).flatten, results.map Prod.snd)

/-! ## jira_client.py: label aliasing (heap model)

The frame claim about `create_issue` not mutating `analysis.labels` is about
Python object aliasing, so the two label lists are modelled in a small heap of
list cells addressed by allocation index. -/

/-- A heap of Python list-of-string objects; an address is an index into
`cells`. -/
structure LHeap where
  cells : List (List String)
deriving DecidableEq, Repr

/-- Read the list object at address `a`. -/
def LHeap.lookup (h : LHeap) (a : Nat) : List String :=
  h.cells.getD a []

/-- Allocate a fresh list object; returns the new heap and the fresh
address. -/
def LHeap.alloc (h : LHeap) (v : List String) : LHeap × Nat :=
  (⟨h.cells ++ [v]⟩, h.cells.length)

/-- Overwrite the list object at address `a`. -/
def LHeap.store (h : LHeap) (a : Nat) (v : List String) : LHeap :=
  ⟨h.cells.set a v⟩

/-- jira_client.py `create_issue`, label handling only, with explicit heap:
`labels = list(analysis.labels)` allocates a fresh list holding a copy of the
analysis's labels (at `labelsAddr`), and `labels.append(f"slide-{n}")`
mutates that fresh list. Returns the heap after both statements and the
address the payload's `"labels"` field refers to. -/
def create_issue_labels (h : LHeap) (labelsAddr : Nat) (slide_number : Nat) :
    LHeap × Nat :=
  let copied := h.lookup labelsAddr
  let allocated := h.alloc copied
  let h2 := allocated.1.store allocated.2 (copied ++ [s!"slide-{slide_number}"])
  (h2, allocated.2)

/-! ## image_extractor.py -/

/-- image_extractor.py `ImageExtractor._optimize_image_quality`: starting from
the given quality, repeatedly `pil_img.save(...)` (the save and the resulting
file size are external I/O, abstracted by the oracle `fits q` = "the artifact
saved at quality `q` is within `max_image_size_mb`"); stop as soon as the
artifact fits or the next 10-step decrement takes the quality below
`MIN_JPEG_QUALITY`. Returns the list of qualities at which a save happened
(in order) and the final value of the `quality` variable, which the Python
function returns. -/
def _optimize_image_quality (fits : Nat → Bool) (quality : Nat) :
    List Nat × Nat :=
  if h : MIN_JPEG_QUALITY ≤ quality then
    if fits quality then ([quality], quality)
    else
      let rest := _optimize_image_quality fits (quality - 10)
      (quality :: rest.1, rest.2)
  else ([], quality)
termination_by quality
decreasing_by
  simp only [MIN_JPEG_QUALITY] at h
  omega

/-! ## processor.py -/

/-- The external capabilities `processor.process` drives (PDF conversion,
page rendering, image file reads, vision inference, JSON decoding, the Jira
endpoint). -/
structure ExtOracles where
  encode : String → Except String String
  infer : String → Nat → Except String String
  decoder : String → Option AnalysisDict
  convertPdf : Except String String
  extractImages : String → List Nat → Except String (List (Nat × String))
  post : Payload → Except String String

/-- The run-level configuration bits `process` consults
(`config.project_key` and `config.dry_run`). -/
structure RunConfig where
  manual_project_key : Option String
  dry_run : Bool

/-- Python semantics of the destructuring `idx, _` applied to one of the
3-tuples `(idx, slide, project_key)` yielded by `find_issue_slides`:
unpacking a 3-element tuple into two targets raises
`ValueError: too many values to unpack (expected 2)`, whatever the tuple
holds. -/
def unpackPair3 (_t : Nat × String × String) : Except String (Nat × String) :=
  Except.error "too many values to unpack (expected 2)"

/-- processor.py `AsyncPowerPointToJiraProcessor.process`: collect the issue
slides; return `[]` if none; otherwise evaluate the comprehension
`[idx for idx, _ in issue_slides]` (which unpacks each 3-tuple into two
names), convert to PDF, extract the slide images, analyze them in a batch
— passing NO slide→project mapping, as the source calls
`analyze_slides_batch(slide_images)` with a single argument — and, unless
this is a dry run with a non-empty result, create the Jira issues (the
attachment step touches no analysis record). -/
def process (ext : ExtOracles) (cfg : RunConfig) (deck : List String) :
    Except String (List SlideAnalysis) :=
  let issue_slides := find_issue_slides deck
  if issue_slides.isEmpty then Except.ok []
  else do
    let pairs ← issue_slides.mapM unpackPair3
    let issue_slide_numbers := pairs.map Prod.fst
    let pdf_path ← ext.convertPdf
    let slide_images ← ext.extractImages pdf_path issue_slide_numbers
    let analyses := (analyze_slides_batch ext.encode ext.infer ext.decoder
      cfg.manual_project_key slide_images none).1
    if cfg.dry_run = false && analyses.isEmpty = false then do
      let filed ← create_issues_batch ext.post analyses
      pure filed.2
    else
      pure analyses

/-- A trivial instantiation of the external capabilities, used to evaluate
the pipeline on concrete inputs: reads succeed, the vision model returns a
fixed non-JSON string, JSON decoding fails, rendering succeeds, and ticket
creation succeeds with a fixed key. -/
def extStub : ExtOracles := {
  encode := fun _ => Except.ok "IMGDATA",
  infer := fun _ _ => Except.ok "plain text answer",
  decoder := fun _ => none,
  convertPdf := Except.ok "deck.pdf",
  extractImages := fun _ ns => Except.ok (ns.map (fun n => (n, s!"slide_{n}.jpg"))),
  post := fun _ => Except.ok "AP-1" }

/-! ## Helper lemmas -/

/-- `List.find?` returns the element at the first index whose predicate
holds: if `p` holds at index `i` and fails at every earlier index, `find?`
returns the element at `i`. -/
theorem find_of_first_match {α : Type} (p : α → Bool) (l : List α) (i : Nat)
    (hi : i < l.length) (hp : p (l.get ⟨i, hi⟩) = true)
    (hprev : ∀ j : Nat, ∀ hj : j < l.length, j < i → p (l.get ⟨j, hj⟩) = false) :
    l.find? p = some (l.get ⟨i, hi⟩) := by
  induction l generalizing i with
  | nil => exact absurd hi (by simp)
  | cons x xs ih =>
    cases i with
    | zero =>
      simp only [List.get] at hp
      simp [List.find?_cons, hp]
    | succ k =>
      have hx : p x = false := hprev 0 (by simp) (Nat.succ_pos k)
      have hk : k < xs.length := by simpa using hi
      simp only [List.get] at hp ⊢
      rw [List.find?_cons]
      simp only [hx]
      exact ih k hk hp (fun j hj hji => by
        have := hprev (j + 1) (by simpa using Nat.succ_lt_succ hj) (Nat.succ_lt_succ hji)
        simpa using this)

/-! ## Claims -/

/-- C1: the spec says that, with no global override configured, each analysis
produced by the pipeline's batch-analysis stage carries the project key the
SlideDetector assigned to its slide. The code does not do this: on any deck
with an issue slide, `process` raises
`ValueError: too many values to unpack (expected 2)` at
`issue_slide_numbers = [idx for idx, _ in issue_slides]` (processor.py line
66), because `find_issue_slides` yields 3-tuples; and independently, the call
`analyze_slides_batch(slide_images)` (line 81) passes no slide→project
mapping, so even the intended continuation would give every analysis a `None`
project key instead of the classifier's key ("DB" here). -/
theorem c1_pipeline_loses_routing_keys :
  process extStub ⟨none, false⟩ ["DB issue: replication lag"] =
    Except.error "too many values to unpack (expected 2)" ∧
  ∀ a ∈ (analyze_slides_batch extStub.encode extStub.infer extStub.decoder none
      [(1, "slide_1.jpg")] none).1, a.project_key = none := by
  constructor
  · rfl
  · decide

/-- C7: the spec says a dry run terminates after the Analyze stage and still
returns the analyses without ticket keys. The code instead raises
`ValueError: too many values to unpack (expected 2)` at processor.py line 66
on any deck containing an issue slide, before the analysis stage is ever
reached, so a dry run on such a deck returns nothing at all. -/
theorem c7_dry_run_crashes_before_analysis :
  process extStub ⟨none, true⟩ ["Issue: camera misaligned"] =
    Except.error "too many values to unpack (expected 2)" := by
  rfl

/-- C3: any slide text with "DB issue:" at the start of some line
(case-insensitively) routes to the project key "DB" bound to the "DB issue:"
rule, whatever else the text contains; and in general, for a text matching
the rule at declaration index `i` and no earlier rule, classification returns
rule `i`'s key — first declared match wins. -/
theorem c3_db_rule_and_declaration_order :
  (∀ t : String, lineStartMatch "db issue:" t = true →
      _detect_issue_and_project t = some "DB") ∧
  (∀ t : String, ∀ i : Nat, ∀ hi : i < ISSUE_PROJECT_RULES.length,
      lineStartMatch (ISSUE_PROJECT_RULES.get ⟨i, hi⟩).1 t = true →
      (∀ j : Nat, ∀ hj : j < ISSUE_PROJECT_RULES.length, j < i →
          lineStartMatch (ISSUE_PROJECT_RULES.get ⟨j, hj⟩).1 t = false) →
      _detect_issue_and_project t = some (ISSUE_PROJECT_RULES.get ⟨i, hi⟩).2) := by
  constructor
  · intro t h
    have hany : ISSUE_PATTERNS.any (fun pat => lineStartMatch pat t) = true :=
      List.any_eq_true.mpr ⟨"db issue:", by decide, h⟩
    have hfind := find_of_first_match
      (fun rule => lineStartMatch rule.1 t) ISSUE_PROJECT_RULES 0
      (by decide) (by simpa using h)
      (fun j hj hji => absurd hji (Nat.not_lt_zero j))
    simp only [_detect_issue_and_project, hany, hfind]
    rfl
  · intro t i hi hmatch hprev
    have hall : ∀ r ∈ ISSUE_PROJECT_RULES, r.1 ∈ ISSUE_PATTERNS := by decide
    have hpatmem : (ISSUE_PROJECT_RULES.get ⟨i, hi⟩).1 ∈ ISSUE_PATTERNS :=
      hall _ (List.get_mem ISSUE_PROJECT_RULES i hi)
    have hany : ISSUE_PATTERNS.any (fun pat => lineStartMatch pat t) = true :=
      List.any_eq_true.mpr ⟨_, hpatmem, hmatch⟩
    have hfind := find_of_first_match
      (fun rule => lineStartMatch rule.1 t) ISSUE_PROJECT_RULES i hi hmatch hprev
    simp only [_detect_issue_and_project, hany, hfind]
    rfl

/-- Witness for C3: instantiates both conjuncts — a text whose second line
carries "DB issue:" routes to "DB", and "Bug: x", which matches only the
rule at index 2, routes to that rule's key "AP". -/
theorem c3_witness :
  _detect_issue_and_project "Other line\nDB issue: replication lag" = some "DB" ∧
  _detect_issue_and_project "Bug: x" = some "AP" := by
  refine ⟨c3_db_rule_and_declaration_order.1 _ (by decide), ?_⟩
  have h := c3_db_rule_and_declaration_order.2 "Bug: x" 2 (by decide)
    (by decide) (by decide)
  simpa using h

/-- A successful `analyze_slide` call resolves the project key as: manual
override if truthy, otherwise the pre-determined key. -/
theorem analyze_slide_ok_project_key (encode : String → Except String String)
    (infer : String → Nat → Except String String)
    (decoder : String → Option AnalysisDict)
    (manual_project_key : Option String) (image_path : String) (slide_num : Nat)
    (predetermined : Option String) (a : SlideAnalysis)
    (h : analyze_slide encode infer decoder manual_project_key image_path
          slide_num predetermined = Except.ok a) :
    a.project_key =
      if optTruthy manual_project_key then manual_project_key else predetermined := by
  unfold analyze_slide at h
  cases he : encode image_path with
  | error e => simp only [he] at h; exact absurd h (by simp)
  | ok base64_image =>
    simp only [he] at h
    cases hc : infer base64_image slide_num with
    | error e => simp only [hc] at h; exact absurd h (by simp)
    | ok content =>
      simp only [hc, Except.ok.injEq] at h
      subst h
      rfl

/-- A non-empty string is Python-truthy. -/
theorem optTruthy_some_of_ne (k : String) (hk : k ≠ "") :
    optTruthy (some k) = true := by
  cases k with
  | mk data =>
    cases data with
    | nil => exact absurd rfl hk
    | cons c cs => rfl

/-- C6: when a manual override project key is configured (a non-empty
string, `config.project_key`), every analysis returned by
`analyze_slides_batch` carries that key as its `project_key`, whatever
slide→project mapping the classifier computed. -/
theorem c6_manual_override_wins (encode : String → Except String String)
    (infer : String → Nat → Except String String)
    (decoder : String → Option AnalysisDict) (k : String) (hk : k ≠ "")
    (slide_images : List (Nat × String))
    (mapping : Option (List (Nat × String))) :
    ∀ a ∈ (analyze_slides_batch encode infer decoder (some k)
        slide_images mapping).1, a.project_key = some k := by
  intro a ha
  simp only [analyze_slides_batch, List.mem_filterMap] at ha
  obtain ⟨⟨n, r⟩, hmem, hopt⟩ := ha
  simp only [batchAnnotated, List.mem_map] at hmem
  obtain ⟨⟨sn, ip⟩, _, heq⟩ := hmem
  have hok : r = Except.ok a := by
    cases r with
    | error e => simp [Except.toOption] at hopt
    | ok v => simp [Except.toOption] at hopt; rw [hopt]
  have hn : sn = n := congrArg Prod.fst heq
  have hr : analyze_slide encode infer decoder (some k) ip sn
      (mappingGet mapping sn) = Except.ok a := by
    have := congrArg Prod.snd heq
    simp at this
    rw [this, hok]
  have := analyze_slide_ok_project_key encode infer decoder (some k) ip sn
    (mappingGet mapping sn) a hr
  rwa [optTruthy_some_of_ne k hk, if_pos rfl] at this

/-- Witness for C6: a concrete one-slide batch with override key "OPS"
produces a (non-empty) result whose single analysis carries "OPS" even
though no mapping was supplied. -/
theorem c6_witness :
  (analyze_slides_batch extStub.encode extStub.infer extStub.decoder (some "OPS")
      [(1, "img1.jpg")] none).1 ≠ [] ∧
  ∀ a ∈ (analyze_slides_batch extStub.encode extStub.infer extStub.decoder (some "OPS")
      [(1, "img1.jpg")] none).1, a.project_key = some "OPS" :=
  ⟨by decide, c6_manual_override_wins extStub.encode extStub.infer extStub.decoder
    "OPS" (by decide) [(1, "img1.jpg")] none⟩

/-- Whether an annotated batch result is a failed task. -/
def isErrPair (p : Nat × Except String SlideAnalysis) : Bool :=
  match p.2 with
  | Except.error _ => true
  | Except.ok _ => false

/-- Successes and failures of a batch partition it: the successful results
plus the failed ones account for every task. -/
theorem oks_length_add_errs_length (l : List (Nat × Except String SlideAnalysis)) :
    (l.filterMap (fun p => p.2.toOption)).length + (l.filter isErrPair).length
      = l.length := by
  induction l with
  | nil => rfl
  | cons p ps ih =>
    obtain ⟨n, r⟩ := p
    cases r with
    | error e =>
      have h1 : ((n, Except.error (α := SlideAnalysis) e) :: ps).filterMap
          (fun p => p.2.toOption) = ps.filterMap (fun p => p.2.toOption) := by
        simp [Except.toOption]
      have h2 : ((n, Except.error (α := SlideAnalysis) e) :: ps).filter isErrPair
          = (n, Except.error e) :: ps.filter isErrPair := by
        simp [List.filter_cons, isErrPair]
      rw [h1, h2, List.length_cons, List.length_cons]
      omega
    | ok v =>
      have h1 : ((n, Except.ok (ε := String) v) :: ps).filterMap
          (fun p => p.2.toOption) = v :: ps.filterMap (fun p => p.2.toOption) := by
        simp [Except.toOption]
      have h2 : ((n, Except.ok (ε := String) v) :: ps).filter isErrPair
          = ps.filter isErrPair := by
        simp [List.filter_cons, isErrPair]
      rw [h1, h2, List.length_cons, List.length_cons]
      omega

/-- One error log line is produced per failed task. -/
theorem logs_length_eq_errs_length (l : List (Nat × Except String SlideAnalysis)) :
    (l.filterMap (fun p =>
      match p with
      | (slide_num, Except.error e) => some s!"Failed to analyze slide {slide_num}: {e}"
      | (_, Except.ok _) => none)).length = (l.filter isErrPair).length := by
  induction l with
  | nil => rfl
  | cons p ps ih =>
    obtain ⟨n, r⟩ := p
    cases r with
    | error e =>
      have h2 : ((n, Except.error (α := SlideAnalysis) e) :: ps).filter isErrPair
          = (n, Except.error e) :: ps.filter isErrPair := by
        simp [List.filter_cons, isErrPair]
      rw [List.filterMap_cons, h2]
      simpa using ih
    | ok v =>
      have h2 : ((n, Except.ok (ε := String) v) :: ps).filter isErrPair
          = ps.filter isErrPair := by
        simp [List.filter_cons, isErrPair]
      rw [List.filterMap_cons, h2]
      simpa using ih

/-- C4: if exactly one of the per-slide analysis tasks of a batch fails,
`analyze_slides_batch` still returns normally (the function is total — the
gather uses `return_exceptions=True`) with exactly N−1 successful records,
exactly one error is logged, and every sibling task's success is in the
returned list. -/
theorem c4_batch_failure_isolation (encode : String → Except String String)
    (infer : String → Nat → Except String String)
    (decoder : String → Option AnalysisDict)
    (manual_project_key : Option String)
    (slide_images : List (Nat × String))
    (mapping : Option (List (Nat × String)))
    (h : ((batchAnnotated encode infer decoder manual_project_key slide_images
        mapping).filter isErrPair).length = 1) :
    (analyze_slides_batch encode infer decoder manual_project_key slide_images
        mapping).1.length + 1 = slide_images.length ∧
    (analyze_slides_batch encode infer decoder manual_project_key slide_images
        mapping).2.length = 1 ∧
    ∀ n a, (n, Except.ok a) ∈ batchAnnotated encode infer decoder
        manual_project_key slide_images mapping →
      a ∈ (analyze_slides_batch encode infer decoder manual_project_key
        slide_images mapping).1 := by
  have hlen : (batchAnnotated encode infer decoder manual_project_key slide_images
      mapping).length = slide_images.length := by
    simp [batchAnnotated]
  refine ⟨?_, ?_, ?_⟩
  · have := oks_length_add_errs_length
      (batchAnnotated encode infer decoder manual_project_key slide_images mapping)
    rw [h] at this
    rw [← hlen]
    exact this
  · have := logs_length_eq_errs_length
      (batchAnnotated encode infer decoder manual_project_key slide_images mapping)
    rw [h] at this
    exact this
  · intro n a hmem
    exact List.mem_filterMap.mpr ⟨(n, Except.ok a), hmem, rfl⟩

/-- A vision-inference oracle that fails exactly on slide 2, used to witness
C4's hypothesis. -/
def failInferOn2 : String → Nat → Except String String :=
  fun _ n => if n = 2 then Except.error "APIError" else Except.ok "resp"

/-- Witness for C4: a three-slide batch whose slide-2 inference call fails
has exactly one failed task, returns the two sibling successes, and logs
exactly one error. -/
theorem c4_witness :
  ((batchAnnotated extStub.encode failInferOn2 extStub.decoder none
      [(1, "a.jpg"), (2, "b.jpg"), (3, "c.jpg")] none).filter isErrPair).length = 1 ∧
  ((analyze_slides_batch extStub.encode failInferOn2 extStub.decoder none
      [(1, "a.jpg"), (2, "b.jpg"), (3, "c.jpg")] none).1.length + 1 = 3 ∧
   (analyze_slides_batch extStub.encode failInferOn2 extStub.decoder none
      [(1, "a.jpg"), (2, "b.jpg"), (3, "c.jpg")] none).2.length = 1 ∧
   ∀ n a, (n, Except.ok a) ∈ batchAnnotated extStub.encode failInferOn2 extStub.decoder
      none [(1, "a.jpg"), (2, "b.jpg"), (3, "c.jpg")] none →
     a ∈ (analyze_slides_batch extStub.encode failInferOn2 extStub.decoder none
      [(1, "a.jpg"), (2, "b.jpg"), (3, "c.jpg")] none).1) :=
  ⟨by decide,
   c4_batch_failure_isolation extStub.encode failInferOn2 extStub.decoder none
     [(1, "a.jpg"), (2, "b.jpg"), (3, "c.jpg")] none (by decide)⟩

/-- `firstIdxAux` finds nothing when the character is absent. -/
theorem firstIdxAux_eq_none (c : Char) (l : List Char) (hl : c ∉ l) :
    ∀ i : Nat, firstIdxAux (fun x => x == c) l i = none := by
  induction l with
  | nil => intro i; rfl
  | cons x xs ih =>
    intro i
    simp only [List.mem_cons, not_or] at hl
    have hx : (x == c) = false := by
      simp only [beq_eq_false_iff_ne, ne_eq]
      exact fun e => hl.1 (e ▸ rfl)
    simp only [firstIdxAux, hx, Bool.false_eq_true, if_false]
    exact ih hl.2 (i + 1)

/-- Python `find` returns −1 when the character does not occur. -/
theorem pyFind_eq_neg_one (s : String) (c : Char) (h : c ∉ s.toList) :
    pyFind s c = -1 := by
  unfold pyFind
  rw [firstIdxAux_eq_none c s.toList h 0]

/-- Python `rfind` returns −1 when the character does not occur. -/
theorem pyRfind_eq_neg_one (s : String) (c : Char) (h : c ∉ s.toList) :
    pyRfind s c = -1 := by
  have h2 : c ∉ s.toList.reverse := by simpa using h
  unfold pyRfind
  rw [firstIdxAux_eq_none c s.toList.reverse h2 0]

/-- The slice `s[-1:0]` is always empty (this is the `json_str` produced by
`_parse_response` when neither brace occurs, since `find` and `rfind` both
return −1). -/
theorem pySlice_neg_one_zero (s : String) : pySlice s (-1) 0 = "" := by
  simp [pySlice]

/-- When the response contains neither `{` nor `}`, `_parse_response` falls
back to the degraded record (any JSON decoder rejects the empty slice). -/
theorem parse_response_no_braces (decoder : String → Option AnalysisDict)
    (content : String) (slide_num : Nat)
    (hdec : decoder "" = none)
    (hl : lbrace ∉ content.toList) (hr : rbrace ∉ content.toList) :
    _parse_response decoder content slide_num = fallbackDict slide_num content := by
  unfold _parse_response
  rw [pyFind_eq_neg_one content lbrace hl, pyRfind_eq_neg_one content rbrace hr]
  norm_num
  rw [pySlice_neg_one_zero, hdec]

/-- C5: for any inference response with no brace pair, the slide is not
failed: `analyze_slide` succeeds with description equal to the raw response
verbatim, priority "Medium", issue type "Task", the slide-number placeholder
title, and the single slide-number label. -/
theorem c5_malformed_response_fallback (encode : String → Except String String)
    (infer : String → Nat → Except String String)
    (decoder : String → Option AnalysisDict)
    (manual_project_key : Option String) (image_path : String) (slide_num : Nat)
    (predetermined : Option String) (b64 content : String)
    (henc : encode image_path = Except.ok b64)
    (hinf : infer b64 slide_num = Except.ok content)
    (hdec : decoder "" = none)
    (hl : lbrace ∉ content.toList) (hr : rbrace ∉ content.toList) :
    analyze_slide encode infer decoder manual_project_key image_path slide_num
        predetermined
      = Except.ok {
          slide_number := slide_num,
          title := s!"Issue from Slide {slide_num}",
          description := content,
          priority := "Medium",
          issue_type := "Task",
          labels := [s!"slide-{slide_num}"],
          project_key :=
            if optTruthy manual_project_key then manual_project_key
            else predetermined,
          jira_key := none } := by
  unfold analyze_slide
  simp only [henc, hinf]
  rw [parse_response_no_braces decoder content slide_num hdec hl hr]
  rfl

/-- Witness for C5: the stub oracles return the brace-free response
"plain text answer" for slide 3; the resulting analysis is the fallback
record carrying that text verbatim. -/
theorem c5_witness :
  extStub.decoder "" = none ∧
  lbrace ∉ "plain text answer".toList ∧
  rbrace ∉ "plain text answer".toList ∧
  analyze_slide extStub.encode extStub.infer extStub.decoder none "img.jpg" 3
      (some "DB")
    = Except.ok {
        slide_number := 3,
        title := "Issue from Slide 3",
        description := "plain text answer",
        priority := "Medium",
        issue_type := "Task",
        labels := ["slide-3"],
        project_key := some "DB",
        jira_key := none } := by
  refine ⟨rfl, by decide, by decide, ?_⟩
  rw [c5_malformed_response_fallback extStub.encode extStub.infer extStub.decoder
    none "img.jpg" 3 (some "DB") "IMGDATA" "plain text answer" rfl rfl rfl
    (by decide) (by decide)]
  rfl

/-- A concrete analysis that reaches ticket filing with no project key. -/
def noKeyAnalysis : SlideAnalysis :=
  { slide_number := 4, title := "t", description := "d",
    priority := "Medium", issue_type := "Task", labels := ["x"],
    project_key := none, jira_key := none }

/-- C2 counterexample: the claim says the missing-project-key error is fatal
to the run and propagates out of the ticket-filing stage. It does not: on a
batch containing an analysis with `project_key = None`, `create_issues_batch`
returns normally (`Except.ok`) — the per-item `except` swallows the
`ValueError` raised by `create_issue` — with no payload ever submitted and
the record returned unchanged, ticket key still absent. -/
theorem c2_counterexample_error_swallowed :
  create_issues_batch extStub.post [noKeyAnalysis]
    = Except.ok ([], [noKeyAnalysis]) := by
  rfl

/-- C2 as amended: for an analysis whose project key is absent (None or
empty), `create_issue` raises and never submits a payload for it — it never
creates a ticket with an empty or null project field — but the batch
ticket-filing stage catches the per-item error, logs it, and returns the
record without a ticket key; the violation is not fatal to the run. -/
theorem c2_amended_raise_but_not_fatal (post : Payload → Except String String)
    (a : SlideAnalysis) (h : optTruthy a.project_key = false) :
    (create_issue post a).1 = [] ∧
    (∃ e, (create_issue post a).2 = Except.error e) ∧
    create_issues_batch post [a] = Except.ok ([], [a]) := by
  refine ⟨?_, ?_, ?_⟩
  · simp [create_issue, h]
  · simp only [create_issue, h]
    exact ⟨_, rfl⟩
  · simp [create_issues_batch, createWithSemaphore, create_issue, h]

/-- Witness for C2's amended theorem at the concrete no-key analysis and the
stub ticket store. -/
theorem c2_witness :
  optTruthy noKeyAnalysis.project_key = false ∧
  ((create_issue extStub.post noKeyAnalysis).1 = [] ∧
   (∃ e, (create_issue extStub.post noKeyAnalysis).2 = Except.error e) ∧
   create_issues_batch extStub.post [noKeyAnalysis]
     = Except.ok ([], [noKeyAnalysis])) :=
  ⟨by decide, c2_amended_raise_but_not_fatal extStub.post noKeyAnalysis (by decide)⟩

/-- Default element used for positional list access in batch statements. -/
def defaultAnalysis : SlideAnalysis :=
  { slide_number := 0, title := "", description := "" }

/-- Positional access through `List.map`: the `i`-th mapped element is `f` of
the `i`-th source element. -/
theorem getD_map_get {α β : Type} (f : α → β) (l : List α) (i : Nat)
    (hi : i < l.length) (d : β) :
    (l.map f).getD i d = f (l.get ⟨i, hi⟩) := by
  induction l generalizing i with
  | nil => exact absurd hi (by simp)
  | cons x xs ih =>
    cases i with
    | zero => rfl
    | succ b =>
      have hb : b < xs.length := by simpa using hi
      exact ih b hb

/-- C9: batch ticket creation always returns normally with exactly one output
record per input record, in input order; at every position, a failed creation
call returns the input record unchanged (ticket key still absent), and a
successful one returns it with only the ticket key filled in. -/
theorem c9_batch_preserves_records (post : Payload → Except String String)
    (analyses : List SlideAnalysis) (i : Nat) (hi : i < analyses.length) :
    ∃ subs outs, create_issues_batch post analyses = Except.ok (subs, outs) ∧
      outs.length = analyses.length ∧
      (∀ e, (create_issue post (analyses.get ⟨i, hi⟩)).2 = Except.error e →
        outs.getD i defaultAnalysis = analyses.get ⟨i, hi⟩) ∧
      (∀ k, (create_issue post (analyses.get ⟨i, hi⟩)).2 = Except.ok k →
        outs.getD i defaultAnalysis
          = { analyses.get ⟨i, hi⟩ with jira_key := some k }) := by
  refine ⟨_, _, rfl, ?_, ?_, ?_⟩
  · simp [create_issues_batch]
  · intro e he
    have houts : ((analyses.map (createWithSemaphore post)).map Prod.snd).getD i
        defaultAnalysis = (createWithSemaphore post (analyses.get ⟨i, hi⟩)).2 := by
      rw [List.map_map]
      exact getD_map_get _ analyses i hi _
    rcases hcc : create_issue post (analyses.get ⟨i, hi⟩) with ⟨subs0, r⟩
    rw [hcc] at he
    simp only at he
    subst he
    simp only [create_issues_batch] at houts ⊢
    rw [houts]
    simp only [List.get_eq_getElem] at hcc
    simp [createWithSemaphore, hcc]
  · intro k hk
    have houts : ((analyses.map (createWithSemaphore post)).map Prod.snd).getD i
        defaultAnalysis = (createWithSemaphore post (analyses.get ⟨i, hi⟩)).2 := by
      rw [List.map_map]
      exact getD_map_get _ analyses i hi _
    rcases hcc : create_issue post (analyses.get ⟨i, hi⟩) with ⟨subs0, r⟩
    rw [hcc] at hk
    simp only at hk
    subst hk
    simp only [create_issues_batch] at houts ⊢
    rw [houts]
    simp only [List.get_eq_getElem] at hcc
    simp [createWithSemaphore, hcc]

/-- An analysis with a project key, used to witness C9 against a failing
ticket store. -/
def keyedAnalysis : SlideAnalysis :=
  { slide_number := 9, title := "t9", description := "d9",
    priority := "High", issue_type := "Bug", labels := ["lab"],
    project_key := some "AP", jira_key := none }

/-- A ticket store that rejects every creation call. -/
def alwaysFailStore : Payload → Except String String :=
  fun _ => Except.error "HTTP 400"

/-- Witness for C9: a one-record batch against the always-failing store
returns normally, keeps the record, and leaves its ticket key absent. -/
theorem c9_witness :
  ∃ subs outs, create_issues_batch alwaysFailStore [keyedAnalysis]
      = Except.ok (subs, outs) ∧
    outs.length = [keyedAnalysis].length ∧
    (∀ e, (create_issue alwaysFailStore keyedAnalysis).2 = Except.error e →
      outs.getD 0 defaultAnalysis = keyedAnalysis) ∧
    (∀ k, (create_issue alwaysFailStore keyedAnalysis).2 = Except.ok k →
      outs.getD 0 defaultAnalysis = { keyedAnalysis with jira_key := some k }) :=
  c9_batch_preserves_records alwaysFailStore [keyedAnalysis] 0 (by decide)

/-- `List.set` on the freshly appended cell leaves every cell of the original
list unchanged. -/
theorem set_append_getD_lt {α : Type} (l : List α) (x v d : α) (a : Nat)
    (ha : a < l.length) :
    ((l ++ [x]).set l.length v).getD a d = l.getD a d := by
  induction l generalizing a with
  | nil => exact absurd ha (by simp)
  | cons y ys ih =>
    cases a with
    | zero => rfl
    | succ b =>
      have hb : b < ys.length := by simpa using ha
      exact ih b hb

/-- `List.set` on the freshly appended cell stores the new value there. -/
theorem set_append_getD_self {α : Type} (l : List α) (x v d : α) :
    ((l ++ [x]).set l.length v).getD l.length d = v := by
  induction l with
  | nil => rfl
  | cons y ys ih => exact ih

/-- C10: `create_issue`'s label handling does not mutate the input analysis's
labels list: the slide tag is appended only to the fresh copy the payload
refers to. After the call, the original labels cell (any valid address `a`)
holds exactly what it held before, the payload's labels live at a different
address, and that address holds the original labels plus the `slide-N`
tag. -/
theorem c10_labels_not_mutated (h : LHeap) (a n : Nat)
    (ha : a < h.cells.length) :
    ((create_issue_labels h a n).1).lookup a = h.lookup a ∧
    (create_issue_labels h a n).2 ≠ a ∧
    ((create_issue_labels h a n).1).lookup (create_issue_labels h a n).2
      = h.lookup a ++ [s!"slide-{n}"] := by
  refine ⟨?_, ?_, ?_⟩
  · simp only [create_issue_labels, LHeap.alloc, LHeap.store, LHeap.lookup]
    exact set_append_getD_lt h.cells _ _ [] a ha
  · simp only [create_issue_labels, LHeap.alloc]
    omega
  · simp only [create_issue_labels, LHeap.alloc, LHeap.store, LHeap.lookup]
    exact set_append_getD_self h.cells _ _ []

/-- Witness for C10: on a one-cell heap holding `["a", "b"]`, filing slide 7
leaves cell 0 at `["a", "b"]` and the payload's fresh cell holds
`["a", "b", "slide-7"]`. -/
theorem c10_witness :
  (0 < (LHeap.mk [["a", "b"]]).cells.length) ∧
  (((create_issue_labels (LHeap.mk [["a", "b"]]) 0 7).1).lookup 0
      = (LHeap.mk [["a", "b"]]).lookup 0 ∧
   (create_issue_labels (LHeap.mk [["a", "b"]]) 0 7).2 ≠ 0 ∧
   ((create_issue_labels (LHeap.mk [["a", "b"]]) 0 7).1).lookup
       (create_issue_labels (LHeap.mk [["a", "b"]]) 0 7).2
     = (LHeap.mk [["a", "b"]]).lookup 0 ++ [s!"slide-{7}"]) :=
  ⟨by decide, c10_labels_not_mutated (LHeap.mk [["a", "b"]]) 0 7 (by decide)⟩

/-- C8 counterexample: the claim says the encoder steps down "to the floor
quality of 60" and, when the size constraint is never met, "accepts the
artifact produced at the floor quality". On an image that stays oversized at
every quality, the loop saves at qualities 85, 75, 65 only — quality 60 is
never attempted, because the next decrement (55) already fails the
`quality >= MIN_JPEG_QUALITY` guard — so the accepted artifact is the one
saved at 65, and the function returns 55. -/
theorem c8_counterexample_floor_never_encoded :
  (_optimize_image_quality (fun _ => false) DEFAULT_JPEG_QUALITY).1 = [85, 75, 65] ∧
  MIN_JPEG_QUALITY ∉ (_optimize_image_quality (fun _ => false) DEFAULT_JPEG_QUALITY).1 ∧
  (_optimize_image_quality (fun _ => false) DEFAULT_JPEG_QUALITY).2 = 55 := by
  have h : _optimize_image_quality (fun _ => false) DEFAULT_JPEG_QUALITY
      = ([85, 75, 65], 55) := by
    rw [DEFAULT_JPEG_QUALITY]
    rw [_optimize_image_quality, _optimize_image_quality, _optimize_image_quality,
      _optimize_image_quality]
    norm_num [MIN_JPEG_QUALITY]
  rw [h]
  refine ⟨rfl, by decide, rfl⟩

/-- C8 as amended: starting from quality 85 and stepping down by 10 while the
quality is still at least `MIN_JPEG_QUALITY` (= 60), the encoder saves at
qualities 85, 75, 65; when the artifact is oversized at all of them it
accepts the artifact saved at quality 65 — the lowest attempted, not the
floor 60, which is unreachable from 85 in steps of 10 — and returns 55 (the
final value of the loop variable). The loop terminates (the definition is
total) and never raises for oversized images. -/
theorem c8_amended_quality_schedule (fits : Nat → Bool)
    (h85 : fits 85 = false) (h75 : fits 75 = false) (h65 : fits 65 = false) :
    _optimize_image_quality fits DEFAULT_JPEG_QUALITY = ([85, 75, 65], 55) := by
  rw [DEFAULT_JPEG_QUALITY]
  rw [_optimize_image_quality, _optimize_image_quality, _optimize_image_quality,
    _optimize_image_quality]
  norm_num [MIN_JPEG_QUALITY, h85, h75, h65]

/-- Witness for C8's amended theorem: the always-oversized image. -/
theorem c8_witness :
  ((fun _ => false : Nat → Bool) 85 = false ∧
   (fun _ => false : Nat → Bool) 75 = false ∧
   (fun _ => false : Nat → Bool) 65 = false) ∧
  _optimize_image_quality (fun _ => false) DEFAULT_JPEG_QUALITY
    = ([85, 75, 65], 55) :=
  ⟨⟨rfl, rfl, rfl⟩, c8_amended_quality_schedule (fun _ => false) rfl rfl rfl⟩
